import Mathlib

/-!
Verification development for the `moveit2_grasps` repository.

Part 1 embeds the repository's single source file,
`launch/grasp_filter_demo.launch.py`, as Lean definitions: a file-system
abstraction standing for the ament package index and the OS file API, Python
values as an inductive type, and the three top-level Python functions
(`load_file`, `load_yaml`, `generate_launch_description`) transcribed
one-to-one.

Part 2 models the grasp filter pipeline engine described by the design
specification.  That engine is code of this repository that is not present
under `src/` (the repository as given contains only the launch glue), so the
pipeline definitions are modelled from the specification text, and each such
definition says so in its doc comment.
-/

namespace MoveitGrasps

/-- A Python scalar value as it occurs in the launch file: `None`, a `bool`,
or a `str`. -/
inductive PyScalar where
  | pynone : PyScalar
  | pybool : Bool → PyScalar
  | pystr : String → PyScalar
deriving Repr, DecidableEq

/-- A Python value handed to the `parameters` list of the launched node:
a scalar, an opaque YAML document loaded by `yaml.safe_load` (carrying its
source text), or a dictionary with scalar values (the only dictionaries the
launch file builds are single-key scalar-valued literals). -/
inductive PyValue where
  | scalar : PyScalar → PyValue
  | pyyaml : String → PyValue
  | pydict : List (String × PyScalar) → PyValue
deriving Repr, DecidableEq

/-- Abstraction of the environment the launch file runs against:
`share pkg` is the ament package share directory of `pkg` (`none` models
`get_package_share_directory` raising `PackageNotFoundError`, which the
launch file does not catch), and `read path` is the contents of the file at
`path` (`none` models `open` raising an `EnvironmentError`, which
`load_file`/`load_yaml` catch). -/
structure FileSys where
  share : String → Option String
  read : String → Option String

/-- The only error that can escape the launch file's configuration
construction: `ament_index_python` raising `PackageNotFoundError`. -/
inductive LaunchError where
  | packageNotFound : String → LaunchError
deriving Repr, DecidableEq

/-- Model of os.path.join as used by the launch file (both arguments relative-free,
so it is plain separator concatenation). -/
def osPathJoin (a b : String) : String :=
  a ++ "/" ++ b

/-- `ament_index_python.packages.get_package_share_directory`: returns the
share directory or raises `PackageNotFoundError`. -/
def get_package_share_directory (fs : FileSys) (package_name : String) :
    Except LaunchError String :=
  match fs.share package_name with
  | some d => .ok d
  | none => .error (.packageNotFound package_name)

/-- YAML whitespace for document trimming. -/
def yamlWhitespace (c : Char) : Bool :=
  c = ' ' || c = '\t' || c = '\n' || c = '\r'

/-- Trim leading and trailing whitespace from a character list. -/
def trimCharList (l : List Char) : List Char :=
  ((l.dropWhile yamlWhitespace).reverse.dropWhile yamlWhitespace).reverse

/-- Is a YAML document one that `yaml.safe_load` loads as Python `None`:
empty/whitespace-only, or an explicit null document. -/
def isYamlNullDoc (s : String) : Bool :=
  let t := trimCharList s.data
  t.isEmpty || t == "null".data || t == "~".data || t == "Null".data ||
    t == "NULL".data

/-- Model of `yaml.safe_load` from the external PyYAML library, restricted to
the behaviour the launch file depends on: a null document loads as Python
`None`; any other document loads as some (otherwise opaque) value carrying
its source text. -/
def yamlSafeLoad (s : String) : Option PyValue :=
  if isYamlNullDoc s then none else some (.pyyaml s)

/-- `load_file` from `launch/grasp_filter_demo.launch.py`: resolve the
package share directory (raising if the package is unknown), then read the
file, returning `None` if opening it raises an `EnvironmentError`. -/
def load_file (fs : FileSys) (package_name file_path : String) :
    Except LaunchError (Option String) := do
  let package_path ← get_package_share_directory fs package_name
  let absolute_file_path := osPathJoin package_path file_path
  return fs.read absolute_file_path

/-- `load_yaml` from `launch/grasp_filter_demo.launch.py`: like `load_file`
but the successfully-read contents go through `yaml.safe_load`, so a missing
file and a null YAML document both come back as `None`. -/
def load_yaml (fs : FileSys) (package_name file_path : String) :
    Except LaunchError (Option PyValue) := do
  let package_path ← get_package_share_directory fs package_name
  let absolute_file_path := osPathJoin package_path file_path
  return (fs.read absolute_file_path).bind yamlSafeLoad

/-- Inject the result of `load_file` (a `str` or `None`) as a dictionary
value. -/
def pyOfOptStr : Option String → PyScalar
  | none => .pynone
  | some s => .pystr s

/-- Inject the result of `load_yaml` (a loaded document or `None`) as a
`parameters` list entry. -/
def pyOfOptYaml : Option PyValue → PyValue
  | none => .scalar .pynone
  | some v => v

/-- A `launch_ros.actions.Node` as constructed by the launch file. -/
structure Node where
  name : String
  package : String
  executable : String
  output : String
  parameters : List PyValue
deriving Repr, DecidableEq

/-- A `launch.LaunchDescription`; the demo launch file only ever puts `Node`
actions in it. -/
structure LaunchDescription where
  entities : List Node
deriving Repr, DecidableEq

/-- `generate_launch_description` from `launch/grasp_filter_demo.launch.py`,
transcribed statement by statement. -/
def generate_launch_description (fs : FileSys) :
    Except LaunchError LaunchDescription := do
  let robot_description_config ←
    load_file fs "moveit_resources_panda_description" "urdf/panda.urdf"
  let robot_description :=
    PyValue.pydict [("robot_description", pyOfOptStr robot_description_config)]
  let robot_description_semantic_config ←
    load_file fs "moveit_resources_panda_moveit_config" "config/panda.srdf"
  let robot_description_semantic :=
    PyValue.pydict
      [("robot_description_semantic", pyOfOptStr robot_description_semantic_config)]
  let kinematics_yaml ←
    load_yaml fs "moveit_resources_panda_moveit_config" "config/kinematics.yaml"
  let gripper := PyValue.pydict [("gripper", .pystr "two_finger")]
  let ee_group_name := PyValue.pydict [("ee_group_name", .pystr "hand")]
  let planning_group_name :=
    PyValue.pydict [("planning_group_name", .pystr "panda_arm")]
  let statistics_verbose :=
    PyValue.pydict [("moveit_grasps/filter/statistics_verbose", .pybool true)]
  let show_filtered_grasps :=
    PyValue.pydict [("moveit_grasps/filter/show_filtered_grasps", .pybool true)]
  let show_cutting_planes :=
    PyValue.pydict [("moveit_grasps/filter/show_cutting_planes", .pybool true)]
  let show_grasp_filter_collision_if_failed :=
    PyValue.pydict
      [("moveit_grasps/filter/show_grasp_filter_collision_if_failed", .pybool true)]
  let show_filtered_arm_solutions :=
    PyValue.pydict
      [("moveit_grasps/filter/show_filtered_arm_solutions", .pybool true)]
  let panda_grasp_data_yaml ←
    load_yaml fs "moveit_grasps" "config_robot/panda_grasp_data.yaml"
  let moveit_grasps_config_yaml ←
    load_yaml fs "moveit_grasps" "config/moveit_grasps_config.yaml"
  let grasps_demo : Node :=
    { name := "moveit_generator_demo"
      package := "moveit_grasps"
      executable := "moveit_grasps_grasp_filter_demo"
      output := "screen"
      parameters :=
        [robot_description,
         robot_description_semantic,
         pyOfOptYaml kinematics_yaml,
         gripper,
         ee_group_name,
         planning_group_name,
         statistics_verbose,
         show_filtered_grasps,
         show_cutting_planes,
         show_grasp_filter_collision_if_failed,
         show_filtered_arm_solutions,
         pyOfOptYaml panda_grasp_data_yaml,
         pyOfOptYaml moveit_grasps_config_yaml] }
  return { entities := [grasps_demo] }

/-- The keys a `parameters` entry contributes as a parameter dictionary
(non-dictionary entries contribute none at the launch-file level). -/
def dictKeys : PyValue → List String
  | .pydict entries => entries.map Prod.fst
  | _ => []

/-- All dictionary keys occurring in a node's `parameters` list. -/
def nodeParamKeys (n : Node) : List String :=
  (n.parameters.map dictKeys).flatten

/-- All dictionary keys of all nodes of a launch description, empty on
error. -/
def ldParamKeys : Except LaunchError LaunchDescription → List String
  | .ok ld => (ld.entities.map nodeParamKeys).flatten
  | .error _ => []

/-- Prefix test on strings by character-list prefix (kernel-reducible). -/
def strStartsWith (s p : String) : Bool :=
  p.data.isPrefixOf s.data

/-- Number of `parameters` entries of the first node, when there is one. -/
def firstNodeParamCount : Except LaunchError LaunchDescription → Option Nat
  | .ok ld =>
    match ld.entities with
    | n :: _ => some n.parameters.length
    | [] => none
  | .error _ => none

/-- Whether launch-description construction succeeded. -/
def exceptOk : Except LaunchError LaunchDescription → Bool
  | .ok _ => true
  | .error _ => false

/-- A concrete environment in which every package share directory resolves
but every file read fails (all configuration files missing). -/
def fsFilesMissing : FileSys where
  share := fun p => some ("/install/share/" ++ p)
  read := fun _ => none

/-- The node `generate_launch_description` builds, written out explicitly as
a function of the environment and the three resolved share directories; used
to state full-characterization theorems. -/
def demoNode (fs : FileSys) (d1 d2 d3 : String) : Node where
  name := "moveit_generator_demo"
  package := "moveit_grasps"
  executable := "moveit_grasps_grasp_filter_demo"
  output := "screen"
  parameters :=
    [PyValue.pydict
       [("robot_description", pyOfOptStr (fs.read (osPathJoin d1 "urdf/panda.urdf")))],
     PyValue.pydict
       [("robot_description_semantic",
         pyOfOptStr (fs.read (osPathJoin d2 "config/panda.srdf")))],
     pyOfOptYaml ((fs.read (osPathJoin d2 "config/kinematics.yaml")).bind yamlSafeLoad),
     PyValue.pydict [("gripper", .pystr "two_finger")],
     PyValue.pydict [("ee_group_name", .pystr "hand")],
     PyValue.pydict [("planning_group_name", .pystr "panda_arm")],
     PyValue.pydict [("moveit_grasps/filter/statistics_verbose", .pybool true)],
     PyValue.pydict [("moveit_grasps/filter/show_filtered_grasps", .pybool true)],
     PyValue.pydict [("moveit_grasps/filter/show_cutting_planes", .pybool true)],
     PyValue.pydict
       [("moveit_grasps/filter/show_grasp_filter_collision_if_failed", .pybool true)],
     PyValue.pydict
       [("moveit_grasps/filter/show_filtered_arm_solutions", .pybool true)],
     pyOfOptYaml
       ((fs.read (osPathJoin d3 "config_robot/panda_grasp_data.yaml")).bind yamlSafeLoad),
     pyOfOptYaml
       ((fs.read (osPathJoin d3 "config/moveit_grasps_config.yaml")).bind yamlSafeLoad)]

/-- The text of `launch/grasp_filter_demo.launch.py`, the repository's single
source file, as its list of lines (the file ends without a trailing
newline; splitting its contents on newline yields exactly this list). -/
def graspFilterDemoLaunchSource : List String :=
  ["import os",
   "import yaml",
   "from launch import LaunchDescription",
   "from launch_ros.actions import Node",
   "from ament_index_python.packages import get_package_share_directory",
   "",
   "",
   "def load_file(package_name, file_path):",
   "    package_path = get_package_share_directory(package_name)",
   "    absolute_file_path = os.path.join(package_path, file_path)",
   "",
   "    try:",
   "        with open(absolute_file_path, \"r\") as file:",
   "            return file.read()",
   "    except EnvironmentError:  # parent of IOError, OSError *and* WindowsError where available",
   "        return None",
   "",
   "",
   "def load_yaml(package_name, file_path):",
   "    package_path = get_package_share_directory(package_name)",
   "    absolute_file_path = os.path.join(package_path, file_path)",
   "",
   "    try:",
   "        with open(absolute_file_path, \"r\") as file:",
   "            return yaml.safe_load(file)",
   "    except EnvironmentError:  # parent of IOError, OSError *and* WindowsError where available",
   "        return None",
   "",
   "",
   "def generate_launch_description():",
   "    # planning_context",
   "    robot_description_config = load_file(",
   "        \"moveit_resources_panda_description\", \"urdf/panda.urdf\"",
   "    )",
   "    robot_description = \x7b\"robot_description\": robot_description_config\x7d",
   "",
   "    robot_description_semantic_config = load_file(",
   "        \"moveit_resources_panda_moveit_config\", \"config/panda.srdf\"",
   "    )",
   "    robot_description_semantic = \x7b",
   "        \"robot_description_semantic\": robot_description_semantic_config",
   "    \x7d",
   "",
   "    kinematics_yaml = load_yaml(",
   "        \"moveit_resources_panda_moveit_config\", \"config/kinematics.yaml\"",
   "    )",
   "",
   "    gripper = \x7b\"gripper\": \"two_finger\"\x7d",
   "    ee_group_name = \x7b\"ee_group_name\": \"hand\"\x7d",
   "    planning_group_name = \x7b\"planning_group_name\": \"panda_arm\"\x7d",
   "    statistics_verbose = \x7b\"moveit_grasps/filter/statistics_verbose\": True\x7d",
   "    show_filtered_grasps = \x7b\"moveit_grasps/filter/show_filtered_grasps\": True\x7d",
   "    show_cutting_planes = \x7b\"moveit_grasps/filter/show_cutting_planes\": True\x7d",
   "    show_grasp_filter_collision_if_failed = \x7b\"moveit_grasps/filter/show_grasp_filter_collision_if_failed\": True\x7d",
   "    show_filtered_arm_solutions = \x7b\"moveit_grasps/filter/show_filtered_arm_solutions\": True\x7d",
   "    panda_grasp_data_yaml = load_yaml(",
   "        \"moveit_grasps\", \"config_robot/panda_grasp_data.yaml\"",
   "    )",
   "    moveit_grasps_config_yaml = load_yaml(",
   "        \"moveit_grasps\", \"config/moveit_grasps_config.yaml\"",
   "    )",
   "",
   "    # MoveGroupInterface demo executable",
   "    grasps_demo = Node(",
   "        name=\"moveit_generator_demo\",",
   "        package=\"moveit_grasps\",",
   "        executable=\"moveit_grasps_grasp_filter_demo\",",
   "        output=\"screen\",",
   "        parameters=[",
   "            robot_description,",
   "            robot_description_semantic,",
   "            kinematics_yaml,",
   "            gripper,",
   "            ee_group_name,",
   "            planning_group_name,",
   "            statistics_verbose,",
   "            show_filtered_grasps,",
   "            show_cutting_planes,",
   "            show_grasp_filter_collision_if_failed,",
   "            show_filtered_arm_solutions,",
   "            panda_grasp_data_yaml,",
   "            moveit_grasps_config_yaml,",
   "        ],",
   "    )",
   "",
   "    return LaunchDescription([grasps_demo])"]


/-- Modelled from the spec: the grasp filter pipeline engine is absent from
the repository as given, so poses are modelled per the glossary as a target
position together with the approach/orientation direction, over exact
integer coordinates. -/
structure Pose where
  px : Int
  py : Int
  pz : Int
  dx : Int
  dy : Int
  dz : Int
deriving Repr, DecidableEq

/-- Modelled from the spec: an IK solution is a joint configuration achieving
a target end-effector pose. -/
abbrev IKSolution := List Int

/-- Modelled from the spec: the candidate's `ik_solution` fields for the
grasp, pregrasp and lift poses — populated only by IK stages, `None` until
solved. -/
structure IKFields where
  pregrasp : Option IKSolution
  grasp : Option IKSolution
  lift : Option IKSolution
deriving Repr, DecidableEq

/-- Modelled from the spec: the candidate status enum
`{Pending, PassedStage(k), RejectedAt(stage_name, reason), Valid}`. -/
inductive CandidateStatus where
  | pending : CandidateStatus
  | passedStage : Nat → CandidateStatus
  | rejectedAt : String → String → CandidateStatus
  | valid : CandidateStatus
deriving Repr, DecidableEq

/-- A status is terminal when it is `RejectedAt` or `Valid`. -/
def CandidateStatus.isTerminal : CandidateStatus → Bool
  | .rejectedAt _ _ => true
  | .valid => true
  | _ => false

/-- Modelled from the spec: the `GraspCandidate` data entity (the engine is
absent from the repository as given). -/
structure GraspCandidate where
  id : Nat
  grasp_pose : Pose
  pregrasp_pose : Pose
  lift_pose : Pose
  gripper_opening : Int
  score : Int
  status : CandidateStatus
  ik_solution : IKFields
deriving Repr, DecidableEq

/-- Modelled from the spec: the closed set of filter stage variants,
represented as a tagged variant set as §9 directs. -/
inductive FilterStageKind where
  | cuttingPlane : FilterStageKind
  | approachDirection : FilterStageKind
  | ikFeasibility : FilterStageKind
  | ikWithCollision : FilterStageKind
  | desiredOrientation : FilterStageKind
deriving Repr, DecidableEq

/-- Display name of a stage, used in `RejectedAt(stage_name, reason)`. -/
def stageName : FilterStageKind → String
  | .cuttingPlane => "CuttingPlaneFilter"
  | .approachDirection => "ApproachDirectionFilter"
  | .ikFeasibility => "IKFeasibilityFilter"
  | .ikWithCollision => "IKWithCollisionFilter"
  | .desiredOrientation => "DesiredOrientationFilter"

/-- Modelled from the spec: `FilterPipelineConfig` — the enabled stage list
and order, per-stage thresholds, gripper identity, group names, and the
verbosity/visualization flags; immutable for a run. -/
structure FilterPipelineConfig where
  stages : List FilterStageKind
  plane_nx : Int
  plane_ny : Int
  plane_nz : Int
  plane_offset : Int
  approach_ax : Int
  approach_ay : Int
  approach_az : Int
  approach_tol : Int
  desired_ax : Int
  desired_ay : Int
  desired_az : Int
  orientation_tol : Int
  gripper_type : String
  end_effector_group_name : String
  planning_group_name : String
  statistics_verbose : Bool
  show_filtered_grasps : Bool
  show_cutting_planes : Bool
  show_grasp_filter_collision_if_failed : Bool
  show_filtered_arm_solutions : Bool
deriving Repr, DecidableEq

/-- Modelled from the spec: the read-only planning-scene snapshot shared by
the whole run, here bundled with the robot's kinematic ground truth consumed
through the adapters: `ikModel` is the black-box IK service's answer for a
pose (`none` covering both `Unreachable` and `SolverTimeout`), and
`inCollision` the black-box collision query on a joint configuration. -/
structure PlanningSceneSnapshot where
  ikModel : Pose → Option IKSolution
  inCollision : IKSolution → Bool

/-- Modelled from the spec: the Kinematic Solver Adapter's internal state —
here the ordered log of poses the adapter has been asked to solve, which
makes "attempts IK ... in that fixed order" and "does not attempt the
remaining poses" provable statements. -/
structure SolverAdapter where
  log : List Pose
deriving Repr, DecidableEq

/-- Modelled from the spec: a fresh adapter instance, as constructed per
worker at pool startup. -/
def mkSolverAdapter : SolverAdapter :=
  { log := [] }

/-- Modelled from the spec: the adapter contract
`solve(pose, seed) -> Solution | Unreachable`; deterministic given the
snapshot, and recording the attempt in the adapter's log. -/
def solveIK (scene : PlanningSceneSnapshot) (ad : SolverAdapter) (p : Pose) :
    Option IKSolution × SolverAdapter :=
  (scene.ikModel p, { log := ad.log ++ [p] })

/-- Integer dot product of two 3-vectors. -/
def dot3 (a1 a2 a3 b1 b2 b3 : Int) : Int :=
  a1 * b1 + a2 * b2 + a3 * b3

/-- Modelled from the spec: `CuttingPlaneFilter` — rejects candidates on the
wrong side of the configured reference plane, with a grasp exactly on the
plane boundary failing (conservative). -/
def cuttingPlanePass (cfg : FilterPipelineConfig) (c : GraspCandidate) : Bool :=
  0 < dot3 cfg.plane_nx cfg.plane_ny cfg.plane_nz
        c.grasp_pose.px c.grasp_pose.py c.grasp_pose.pz - cfg.plane_offset

/-- Modelled from the spec: `ApproachDirectionFilter` — rejects candidates
whose approach vector deviates from the configured axis beyond a tolerance,
expressed exactly as a lower bound on the dot product with the axis. -/
def approachDirectionPass (cfg : FilterPipelineConfig) (c : GraspCandidate) : Bool :=
  cfg.approach_tol ≤ dot3 cfg.approach_ax cfg.approach_ay cfg.approach_az
        c.grasp_pose.dx c.grasp_pose.dy c.grasp_pose.dz

/-- Modelled from the spec: `DesiredOrientationFilter` — rejects candidates
whose final grasp orientation deviates from the desired axis beyond a
tolerance; purely geometric.  Config-gating is by inclusion of the stage in
the configured stage list. -/
def desiredOrientationPass (cfg : FilterPipelineConfig) (c : GraspCandidate) : Bool :=
  cfg.orientation_tol ≤ dot3 cfg.desired_ax cfg.desired_ay cfg.desired_az
        c.grasp_pose.dx c.grasp_pose.dy c.grasp_pose.dz

/-- Modelled from the spec: `IKFeasibilityFilter` — attempts IK for the
pregrasp, grasp and lift poses in that fixed order, short-circuiting on the
first unsolved pose; solved poses populate the `ik_solution` fields, later
fields remain as given. -/
def ikFeasibilityEval (scene : PlanningSceneSnapshot) (c : GraspCandidate)
    (ad : SolverAdapter) : Bool × GraspCandidate × String × SolverAdapter :=
  match solveIK scene ad c.pregrasp_pose with
  | (none, ad1) => (false, c, "pregrasp_pose_unreachable", ad1)
  | (some s1, ad1) =>
    match solveIK scene ad1 c.grasp_pose with
    | (none, ad2) =>
      (false, { c with ik_solution := { c.ik_solution with pregrasp := some s1 } },
       "grasp_pose_unreachable", ad2)
    | (some s2, ad2) =>
      match solveIK scene ad2 c.lift_pose with
      | (none, ad3) =>
        (false,
         { c with ik_solution :=
             { pregrasp := some s1, grasp := some s2, lift := none } },
         "lift_pose_unreachable", ad3)
      | (some s3, ad3) =>
        (true,
         { c with ik_solution :=
             { pregrasp := some s1, grasp := some s2, lift := some s3 } },
         "", ad3)

/-- Modelled from the spec: `IKWithCollisionFilter` — re-attempts IK for the
same three poses in the same order, additionally validating every solution
against the scene snapshot, with the same short-circuit policy. -/
def ikWithCollisionEval (scene : PlanningSceneSnapshot) (c : GraspCandidate)
    (ad : SolverAdapter) : Bool × GraspCandidate × String × SolverAdapter :=
  match solveIK scene ad c.pregrasp_pose with
  | (none, ad1) => (false, c, "pregrasp_pose_unreachable", ad1)
  | (some s1, ad1) =>
    if scene.inCollision s1 then (false, c, "pregrasp_pose_collision", ad1)
    else
      match solveIK scene ad1 c.grasp_pose with
      | (none, ad2) => (false, c, "grasp_pose_unreachable", ad2)
      | (some s2, ad2) =>
        if scene.inCollision s2 then (false, c, "grasp_pose_collision", ad2)
        else
          match solveIK scene ad2 c.lift_pose with
          | (none, ad3) => (false, c, "lift_pose_unreachable", ad3)
          | (some s3, ad3) =>
            if scene.inCollision s3 then (false, c, "lift_pose_collision", ad3)
            else
              (true,
               { c with ik_solution :=
                   { pregrasp := some s1, grasp := some s2, lift := some s3 } },
               "", ad3)

/-- Modelled from the spec: the Filter Stage contract
`evaluate(candidate, scene_snapshot, config)` dispatched over the variant
set; returns pass/fail, the updated candidate, the failure reason, and the
worker's adapter after any IK attempts. -/
def evaluateStage (k : FilterStageKind) (cfg : FilterPipelineConfig)
    (scene : PlanningSceneSnapshot) (c : GraspCandidate) (ad : SolverAdapter) :
    Bool × GraspCandidate × String × SolverAdapter :=
  match k with
  | .cuttingPlane =>
    if cuttingPlanePass cfg c then (true, c, "", ad)
    else (false, c, "cutting_plane_crossed", ad)
  | .approachDirection =>
    if approachDirectionPass cfg c then (true, c, "", ad)
    else (false, c, "approach_direction_deviation", ad)
  | .ikFeasibility => ikFeasibilityEval scene c ad
  | .ikWithCollision => ikWithCollisionEval scene c ad
  | .desiredOrientation =>
    if desiredOrientationPass cfg c then (true, c, "", ad)
    else (false, c, "orientation_deviation", ad)

/-- Modelled from the spec: run the configured stage chain sequentially on
one candidate until a stage fails or all stages pass, then mark the terminal
status; also returns the per-stage (stage, pass) events for statistics. -/
def runStages (cfg : FilterPipelineConfig) (scene : PlanningSceneSnapshot) :
    List FilterStageKind → Nat → GraspCandidate → SolverAdapter →
    GraspCandidate × SolverAdapter × List (FilterStageKind × Bool)
  | [], _idx, c, ad => ({ c with status := .valid }, ad, [])
  | k :: rest, idx, c, ad =>
    let r := evaluateStage k cfg scene c ad
    if r.1 then
      let r2 := runStages cfg scene rest (idx + 1)
        { r.2.1 with status := .passedStage (idx + 1) } r.2.2.2
      (r2.1, r2.2.1, (k, true) :: r2.2.2)
    else
      ({ r.2.1 with status := .rejectedAt (stageName k) r.2.2.1 }, r.2.2.2,
       [(k, false)])

/-- Modelled from the spec: per-stage counters (attempted, passed, failed). -/
structure StageCounters where
  attempted : Nat
  passed : Nat
  failed : Nat
deriving Repr, DecidableEq

/-- All-zero stage counters. -/
def StageCounters.zero : StageCounters :=
  { attempted := 0, passed := 0, failed := 0 }

/-- Modelled from the spec: `RunStatistics` — per-stage counters aggregated
at a single accumulation point after all workers finish. -/
structure RunStatistics where
  cuttingPlane : StageCounters
  approachDirection : StageCounters
  ikFeasibility : StageCounters
  ikWithCollision : StageCounters
  desiredOrientation : StageCounters
deriving Repr, DecidableEq

/-- All-zero run statistics. -/
def RunStatistics.zero : RunStatistics :=
  { cuttingPlane := .zero, approachDirection := .zero, ikFeasibility := .zero
    ikWithCollision := .zero, desiredOrientation := .zero }

/-- Count one stage evaluation into a stage's counters. -/
def bumpCounters (sc : StageCounters) (pass : Bool) : StageCounters :=
  { attempted := sc.attempted + 1
    passed := sc.passed + (if pass then 1 else 0)
    failed := sc.failed + (if pass then 0 else 1) }

/-- Fold one (stage, pass) event into the statistics. -/
def applyEvent (st : RunStatistics) (ev : FilterStageKind × Bool) : RunStatistics :=
  match ev.1 with
  | .cuttingPlane => { st with cuttingPlane := bumpCounters st.cuttingPlane ev.2 }
  | .approachDirection =>
    { st with approachDirection := bumpCounters st.approachDirection ev.2 }
  | .ikFeasibility => { st with ikFeasibility := bumpCounters st.ikFeasibility ev.2 }
  | .ikWithCollision =>
    { st with ikWithCollision := bumpCounters st.ikWithCollision ev.2 }
  | .desiredOrientation =>
    { st with desiredOrientation := bumpCounters st.desiredOrientation ev.2 }

/-- Modelled from the spec: the single post-join accumulation of all stage
events into `RunStatistics`. -/
def aggregateStats (evs : List (FilterStageKind × Bool)) : RunStatistics :=
  evs.foldl applyEvent RunStatistics.zero

/-- Modelled from the spec: process every candidate of the work queue with
the stage chain, threading the worker's adapter and collecting the stage
events; candidate ownership is exclusive, so the sequential traversal is the
observable behaviour of the bounded worker pool. -/
def runAll (cfg : FilterPipelineConfig) (scene : PlanningSceneSnapshot) :
    List GraspCandidate → SolverAdapter →
    List GraspCandidate × List (FilterStageKind × Bool) × SolverAdapter
  | [], ad => ([], [], ad)
  | c :: cs, ad =>
    let r1 := runStages cfg scene cfg.stages 0 c ad
    let r2 := runAll cfg scene cs r1.2.1
    (r1.1 :: r2.1, r1.2.2 ++ r2.2.1, r2.2.2)

/-- Modelled from the spec: the Filter Pipeline Orchestrator contract
`run(candidates, stages, scene_snapshot, config, worker_count)`.  The
ambient solver-adapter state left over from before the run (`prev`) is
deliberately ignored: adapters are constructed fresh at pool startup, which
is what makes re-running the pipeline reproducible.  Returns the annotated
candidates with their run statistics, plus the post-run adapter state. -/
def runPipeline (cfg : FilterPipelineConfig) (scene : PlanningSceneSnapshot)
    (cands : List GraspCandidate) (prev : SolverAdapter) :
    (List GraspCandidate × RunStatistics) × SolverAdapter :=
  let r := runAll cfg scene cands mkSolverAdapter
  ((r.1, aggregateStats r.2.1), r.2.2)

/-- A concrete environment in which no package resolves at all. -/
def fsNoPackages : FileSys where
  share := fun _ => none
  read := fun _ => none

/-- A concrete scene snapshot whose IK service never finds a solution. -/
def sceneUnreachable : PlanningSceneSnapshot where
  ikModel := fun _ => none
  inCollision := fun _ => false

/-- A concrete scene snapshot where every pose is reachable and nothing
collides. -/
def sceneAllReachable : PlanningSceneSnapshot where
  ikModel := fun _ => some [0, 0, 0]
  inCollision := fun _ => false

/-- A concrete pipeline configuration used by the concrete witnesses. -/
def demoConfig : FilterPipelineConfig where
  stages := [.cuttingPlane, .approachDirection, .ikFeasibility, .ikWithCollision]
  plane_nx := 0
  plane_ny := 0
  plane_nz := 1
  plane_offset := 0
  approach_ax := 0
  approach_ay := 0
  approach_az := -1
  approach_tol := 0
  desired_ax := 0
  desired_ay := 0
  desired_az := 1
  orientation_tol := 0
  gripper_type := "two_finger"
  end_effector_group_name := "hand"
  planning_group_name := "panda_arm"
  statistics_verbose := true
  show_filtered_grasps := true
  show_cutting_planes := true
  show_grasp_filter_collision_if_failed := true
  show_filtered_arm_solutions := true

/-- A concrete pending candidate above the cutting plane, approaching
downward, used by the concrete witnesses. -/
def demoCandidate (i : Nat) : GraspCandidate where
  id := i
  grasp_pose := { px := 0, py := 0, pz := 1, dx := 0, dy := 0, dz := -1 }
  pregrasp_pose := { px := 0, py := 0, pz := 2, dx := 0, dy := 0, dz := -1 }
  lift_pose := { px := 0, py := 0, pz := 3, dx := 0, dy := 0, dz := -1 }
  gripper_opening := 1
  score := 5
  status := .pending
  ik_solution := { pregrasp := none, grasp := none, lift := none }

theorem dictKeys_pyOfOptYaml_bind (o : Option String) :
    dictKeys (pyOfOptYaml (o.bind yamlSafeLoad)) = [] := by
  cases o with
  | none => rfl
  | some s =>
    simp only [Option.bind_some, yamlSafeLoad]
    by_cases h : isYamlNullDoc s = true
    · simp [h, pyOfOptYaml, dictKeys]
    · simp [h, pyOfOptYaml, dictKeys]

theorem generate_launch_description_eq (fs : FileSys) (d1 d2 d3 : String)
    (h1 : fs.share "moveit_resources_panda_description" = some d1)
    (h2 : fs.share "moveit_resources_panda_moveit_config" = some d2)
    (h3 : fs.share "moveit_grasps" = some d3) :
    generate_launch_description fs = .ok { entities := [demoNode fs d1 d2 d3] } := by
  simp [generate_launch_description, load_file, load_yaml,
    get_package_share_directory, h1, h2, h3, osPathJoin, demoNode, bind,
    Except.bind, pure, Except.pure]

theorem dictKeys_pydict (entries : List (String × PyScalar)) :
    dictKeys (.pydict entries) = entries.map Prod.fst := rfl

theorem nodeParamKeys_demoNode (fs : FileSys) (d1 d2 d3 : String) :
    nodeParamKeys (demoNode fs d1 d2 d3) =
      ["robot_description", "robot_description_semantic", "gripper",
       "ee_group_name", "planning_group_name",
       "moveit_grasps/filter/statistics_verbose",
       "moveit_grasps/filter/show_filtered_grasps",
       "moveit_grasps/filter/show_cutting_planes",
       "moveit_grasps/filter/show_grasp_filter_collision_if_failed",
       "moveit_grasps/filter/show_filtered_arm_solutions"] := by
  simp [nodeParamKeys, demoNode, dictKeys_pydict, dictKeys_pyOfOptYaml_bind]

theorem ldParamKeys_eq (fs : FileSys) (d1 d2 d3 : String)
    (h1 : fs.share "moveit_resources_panda_description" = some d1)
    (h2 : fs.share "moveit_resources_panda_moveit_config" = some d2)
    (h3 : fs.share "moveit_grasps" = some d3) :
    ldParamKeys (generate_launch_description fs) =
      ["robot_description", "robot_description_semantic", "gripper",
       "ee_group_name", "planning_group_name",
       "moveit_grasps/filter/statistics_verbose",
       "moveit_grasps/filter/show_filtered_grasps",
       "moveit_grasps/filter/show_cutting_planes",
       "moveit_grasps/filter/show_grasp_filter_collision_if_failed",
       "moveit_grasps/filter/show_filtered_arm_solutions"] := by
  rw [generate_launch_description_eq fs d1 d2 d3 h1 h2 h3]
  simp [ldParamKeys, nodeParamKeys_demoNode]

/-- Claim C1 counterexample: in a concrete environment where every package
resolves, launch-description construction succeeds, yet none of the claimed
parameter names `gripper_type`, `end_effector_group_name`,
`statistics_verbose`, `show_filtered_grasps` occurs among the parameter
dictionary keys handed to the demo node — the code uses `gripper`,
`ee_group_name` and `moveit_grasps/filter/`-prefixed names instead. -/
theorem C1_counterexample :
    exceptOk (generate_launch_description fsFilesMissing) = true ∧
    "gripper_type" ∉ ldParamKeys (generate_launch_description fsFilesMissing) ∧
    "end_effector_group_name" ∉
      ldParamKeys (generate_launch_description fsFilesMissing) ∧
    "statistics_verbose" ∉ ldParamKeys (generate_launch_description fsFilesMissing) ∧
    "show_filtered_grasps" ∉
      ldParamKeys (generate_launch_description fsFilesMissing) := by
  refine ⟨rfl, ?_, ?_, ?_, ?_⟩ <;> decide

/-- Claim C1 (amended): whenever the three package share directories
resolve, the parameter dictionaries handed to the demo node carry exactly
the keys `robot_description`, `robot_description_semantic`, `gripper`,
`ee_group_name`, `planning_group_name`, and — under the
`moveit_grasps/filter/` prefix — `statistics_verbose` and the four `show_*`
flags, in that order; and the node additionally receives the grasp-geometry
description and pipeline tuning table as the two final loaded-YAML
parameter entries, as the full characterization through `demoNode` shows. -/
theorem C1_param_names (fs : FileSys) (d1 d2 d3 : String)
    (h1 : fs.share "moveit_resources_panda_description" = some d1)
    (h2 : fs.share "moveit_resources_panda_moveit_config" = some d2)
    (h3 : fs.share "moveit_grasps" = some d3) :
    ldParamKeys (generate_launch_description fs) =
      ["robot_description", "robot_description_semantic", "gripper",
       "ee_group_name", "planning_group_name",
       "moveit_grasps/filter/statistics_verbose",
       "moveit_grasps/filter/show_filtered_grasps",
       "moveit_grasps/filter/show_cutting_planes",
       "moveit_grasps/filter/show_grasp_filter_collision_if_failed",
       "moveit_grasps/filter/show_filtered_arm_solutions"] ∧
    generate_launch_description fs = .ok { entities := [demoNode fs d1 d2 d3] } :=
  ⟨ldParamKeys_eq fs d1 d2 d3 h1 h2 h3,
   generate_launch_description_eq fs d1 d2 d3 h1 h2 h3⟩

/-- Claim C1 witness: the amended statement evaluated in the concrete
all-files-missing environment. -/
theorem C1_witness :
    fsFilesMissing.share "moveit_resources_panda_description" =
      some "/install/share/moveit_resources_panda_description" ∧
    (ldParamKeys (generate_launch_description fsFilesMissing) =
      ["robot_description", "robot_description_semantic", "gripper",
       "ee_group_name", "planning_group_name",
       "moveit_grasps/filter/statistics_verbose",
       "moveit_grasps/filter/show_filtered_grasps",
       "moveit_grasps/filter/show_cutting_planes",
       "moveit_grasps/filter/show_grasp_filter_collision_if_failed",
       "moveit_grasps/filter/show_filtered_arm_solutions"] ∧
     generate_launch_description fsFilesMissing =
       .ok { entities :=
               [demoNode fsFilesMissing
                  "/install/share/moveit_resources_panda_description"
                  "/install/share/moveit_resources_panda_moveit_config"
                  "/install/share/moveit_grasps"] }) :=
  ⟨rfl, C1_param_names fsFilesMissing
      "/install/share/moveit_resources_panda_description"
      "/install/share/moveit_resources_panda_moveit_config"
      "/install/share/moveit_grasps" rfl rfl rfl⟩

/-- Claim C2 counterexample: in a concrete environment where every package
resolves but neither the URDF nor the SRDF file can be opened, `load_file`
returns `None` for both, and `generate_launch_description` still succeeds —
no error is propagated to the caller before filtering starts. -/
theorem C2_counterexample :
    load_file fsFilesMissing "moveit_resources_panda_description"
        "urdf/panda.urdf" = .ok none ∧
    load_file fsFilesMissing "moveit_resources_panda_moveit_config"
        "config/panda.srdf" = .ok none ∧
    exceptOk (generate_launch_description fsFilesMissing) = true := by
  refine ⟨?_, ?_, rfl⟩ <;> rfl

/-- Claim C2 (amended): only an unresolvable package propagates an error to
the caller of `generate_launch_description` (`PackageNotFoundError` from the
uncaught `get_package_share_directory` call); a missing or unreadable URDF
file within a resolvable package is swallowed — `load_file` catches the
`EnvironmentError`, returns `None`, and construction proceeds with
`robot_description: None` as the node's first parameter entry. -/
theorem C2_missing_model_behaviour :
    (∀ fs : FileSys, fs.share "moveit_resources_panda_description" = none →
      generate_launch_description fs =
        .error (.packageNotFound "moveit_resources_panda_description")) ∧
    (∀ (fs : FileSys) (d1 d2 d3 : String),
      fs.share "moveit_resources_panda_description" = some d1 →
      fs.share "moveit_resources_panda_moveit_config" = some d2 →
      fs.share "moveit_grasps" = some d3 →
      fs.read (osPathJoin d1 "urdf/panda.urdf") = none →
      generate_launch_description fs = .ok { entities := [demoNode fs d1 d2 d3] } ∧
      (demoNode fs d1 d2 d3).parameters.head? =
        some (PyValue.pydict [("robot_description", PyScalar.pynone)])) := by
  constructor
  · intro fs h
    simp [generate_launch_description, load_file, get_package_share_directory, h,
      bind, Except.bind]
  · intro fs d1 d2 d3 h1 h2 h3 hr
    refine ⟨generate_launch_description_eq fs d1 d2 d3 h1 h2 h3, ?_⟩
    simp [demoNode, hr, pyOfOptStr]

/-- Claim C2 witness: with no packages registered the package error
propagates; with packages registered but all files missing the description
is still constructed. -/
theorem C2_witness :
    generate_launch_description fsNoPackages =
      .error (.packageNotFound "moveit_resources_panda_description") :=
  C2_missing_model_behaviour.1 fsNoPackages rfl

/-- Claim C3: whenever the three package share directories resolve, the
parameter keys below the `moveit_grasps/filter/show_` namespace are exactly
the four flags `show_filtered_grasps`, `show_cutting_planes`,
`show_grasp_filter_collision_if_failed`, `show_filtered_arm_solutions`, and
each is included in the node's parameter list as a boolean dictionary set to
`True`. -/
theorem C3_show_flags (fs : FileSys) (d1 d2 d3 : String)
    (h1 : fs.share "moveit_resources_panda_description" = some d1)
    (h2 : fs.share "moveit_resources_panda_moveit_config" = some d2)
    (h3 : fs.share "moveit_grasps" = some d3) :
    ((ldParamKeys (generate_launch_description fs)).filter
        (fun k => strStartsWith k "moveit_grasps/filter/show_")) =
      ["moveit_grasps/filter/show_filtered_grasps",
       "moveit_grasps/filter/show_cutting_planes",
       "moveit_grasps/filter/show_grasp_filter_collision_if_failed",
       "moveit_grasps/filter/show_filtered_arm_solutions"] ∧
    generate_launch_description fs = .ok { entities := [demoNode fs d1 d2 d3] } ∧
    (∀ k ∈ ["moveit_grasps/filter/show_filtered_grasps",
            "moveit_grasps/filter/show_cutting_planes",
            "moveit_grasps/filter/show_grasp_filter_collision_if_failed",
            "moveit_grasps/filter/show_filtered_arm_solutions"],
      PyValue.pydict [(k, PyScalar.pybool true)] ∈ (demoNode fs d1 d2 d3).parameters) := by
  refine ⟨?_, generate_launch_description_eq fs d1 d2 d3 h1 h2 h3, ?_⟩
  · rw [ldParamKeys_eq fs d1 d2 d3 h1 h2 h3]
    decide
  · intro k hk
    simp only [List.mem_cons, List.not_mem_nil, or_false] at hk
    rcases hk with rfl | rfl | rfl | rfl <;> simp [demoNode]

/-- Claim C3 witness: the four-flag characterization evaluated in the
concrete all-files-missing environment. -/
theorem C3_witness :
    ((ldParamKeys (generate_launch_description fsFilesMissing)).filter
        (fun k => strStartsWith k "moveit_grasps/filter/show_")) =
      ["moveit_grasps/filter/show_filtered_grasps",
       "moveit_grasps/filter/show_cutting_planes",
       "moveit_grasps/filter/show_grasp_filter_collision_if_failed",
       "moveit_grasps/filter/show_filtered_arm_solutions"] :=
  (C3_show_flags fsFilesMissing
      "/install/share/moveit_resources_panda_description"
      "/install/share/moveit_resources_panda_moveit_config"
      "/install/share/moveit_grasps" rfl rfl rfl).1

/-- Claim C9: `load_yaml` conflates failure with emptiness — when the
package share directory resolves, a file that cannot be opened yields
`.ok none` (the caught `EnvironmentError` path), and a file that opens onto
a null YAML document (empty, whitespace, or explicit null) also yields
`.ok none`, so the two environments are indistinguishable through
`load_yaml`. -/
theorem C9_load_yaml_conflates (fs : FileSys) (pkg path d : String)
    (hd : fs.share pkg = some d) :
    (fs.read (osPathJoin d path) = none → load_yaml fs pkg path = .ok none) ∧
    (∀ s, fs.read (osPathJoin d path) = some s → isYamlNullDoc s = true →
      load_yaml fs pkg path = .ok none) ∧
    (∀ (fs2 : FileSys) (d2 : String), fs2.share pkg = some d2 →
      fs.read (osPathJoin d path) = none →
      fs2.read (osPathJoin d2 path) = some "" →
      load_yaml fs pkg path = load_yaml fs2 pkg path) := by
  refine ⟨?_, ?_, ?_⟩
  · intro h
    simp [load_yaml, get_package_share_directory, hd, h, bind, Except.bind, pure,
      Except.pure]
  · intro s hs hnull
    simp [load_yaml, get_package_share_directory, hd, hs, yamlSafeLoad, hnull,
      bind, Except.bind, pure, Except.pure]
  · intro fs2 d2 hd2 h1 h2
    have e1 : load_yaml fs pkg path = .ok none := by
      simp [load_yaml, get_package_share_directory, hd, h1, bind, Except.bind,
        pure, Except.pure]
    have e2 : load_yaml fs2 pkg path = .ok none := by
      simp [load_yaml, get_package_share_directory, hd2, h2, yamlSafeLoad,
        show isYamlNullDoc "" = true from by decide, bind, Except.bind, pure,
        Except.pure]
    rw [e1, e2]

/-- Claim C9 witness: in the concrete all-files-missing environment the
pipeline tuning table loads as `None` via the missing-file path. -/
theorem C9_witness :
    fsFilesMissing.share "moveit_grasps" = some "/install/share/moveit_grasps" ∧
    fsFilesMissing.read
        (osPathJoin "/install/share/moveit_grasps" "config/moveit_grasps_config.yaml") =
      none ∧
    load_yaml fsFilesMissing "moveit_grasps" "config/moveit_grasps_config.yaml" =
      .ok none :=
  ⟨rfl, rfl,
   (C9_load_yaml_conflates fsFilesMissing "moveit_grasps"
       "config/moveit_grasps_config.yaml" "/install/share/moveit_grasps" rfl).1 rfl⟩

/-- Claim C10 counterexample: in a concrete environment where every package
resolves and every configuration file is missing, the single node's
`parameters` list has 13 entries, not 12; and in an environment with no
packages registered at all, `generate_launch_description` does not return a
`LaunchDescription` in the first place. -/
theorem C10_counterexample :
    firstNodeParamCount (generate_launch_description fsFilesMissing) = some 13 ∧
    firstNodeParamCount (generate_launch_description fsFilesMissing) ≠ some 12 ∧
    exceptOk (generate_launch_description fsNoPackages) = false := by
  refine ⟨rfl, ?_, rfl⟩
  decide

/-- Claim C10 (amended): for every environment in which the three package
share directories resolve — including environments where every
configuration file is missing — `generate_launch_description` returns a
`LaunchDescription` containing exactly one `Node` with name
`moveit_generator_demo`, package `moveit_grasps`, executable
`moveit_grasps_grasp_filter_demo`, output `screen`, and a parameters list of
exactly 13 entries in the fixed source order spelled out by `demoNode`. -/
theorem C10_launch_shape (fs : FileSys) (d1 d2 d3 : String)
    (h1 : fs.share "moveit_resources_panda_description" = some d1)
    (h2 : fs.share "moveit_resources_panda_moveit_config" = some d2)
    (h3 : fs.share "moveit_grasps" = some d3) :
    generate_launch_description fs = .ok { entities := [demoNode fs d1 d2 d3] } ∧
    (demoNode fs d1 d2 d3).name = "moveit_generator_demo" ∧
    (demoNode fs d1 d2 d3).package = "moveit_grasps" ∧
    (demoNode fs d1 d2 d3).executable = "moveit_grasps_grasp_filter_demo" ∧
    (demoNode fs d1 d2 d3).output = "screen" ∧
    (demoNode fs d1 d2 d3).parameters.length = 13 :=
  ⟨generate_launch_description_eq fs d1 d2 d3 h1 h2 h3, rfl, rfl, rfl, rfl, rfl⟩

/-- Claim C10 witness: the amended shape evaluated in the concrete
all-files-missing environment. -/
theorem C10_witness :
    generate_launch_description fsFilesMissing =
      .ok { entities :=
              [demoNode fsFilesMissing
                 "/install/share/moveit_resources_panda_description"
                 "/install/share/moveit_resources_panda_moveit_config"
                 "/install/share/moveit_grasps"] } ∧
    (demoNode fsFilesMissing
       "/install/share/moveit_resources_panda_description"
       "/install/share/moveit_resources_panda_moveit_config"
       "/install/share/moveit_grasps").parameters.length = 13 :=
  ⟨(C10_launch_shape fsFilesMissing
       "/install/share/moveit_resources_panda_description"
       "/install/share/moveit_resources_panda_moveit_config"
       "/install/share/moveit_grasps" rfl rfl rfl).1,
   (C10_launch_shape fsFilesMissing
       "/install/share/moveit_resources_panda_description"
       "/install/share/moveit_resources_panda_moveit_config"
       "/install/share/moveit_grasps" rfl rfl rfl).2.2.2.2.2⟩

/-- Claim C8: the repository's single source file is exactly 86 lines long,
its only top-level definitions are the two configuration loaders and the
launch-description constructor (three `def` lines, no `class` lines), so it
contains none of the filter-pipeline core. -/
theorem C8_source_shape :
    graspFilterDemoLaunchSource.length = 86 ∧
    graspFilterDemoLaunchSource.filter (fun l => strStartsWith l "def ") =
      ["def load_file(package_name, file_path):",
       "def load_yaml(package_name, file_path):",
       "def generate_launch_description():"] ∧
    graspFilterDemoLaunchSource.filter (fun l => strStartsWith l "class ") = [] := by
  refine ⟨rfl, ?_, ?_⟩ <;> decide

theorem ikFeasibilityEval_id (scene : PlanningSceneSnapshot) (c : GraspCandidate)
    (ad : SolverAdapter) : (ikFeasibilityEval scene c ad).2.1.id = c.id := by
  unfold ikFeasibilityEval solveIK
  cases scene.ikModel c.pregrasp_pose <;>
    cases scene.ikModel c.grasp_pose <;>
      cases scene.ikModel c.lift_pose <;> rfl

theorem ikWithCollisionEval_id (scene : PlanningSceneSnapshot) (c : GraspCandidate)
    (ad : SolverAdapter) : (ikWithCollisionEval scene c ad).2.1.id = c.id := by
  unfold ikWithCollisionEval solveIK
  repeat' split
  all_goals rfl

theorem evaluateStage_id (k : FilterStageKind) (cfg : FilterPipelineConfig)
    (scene : PlanningSceneSnapshot) (c : GraspCandidate) (ad : SolverAdapter) :
    (evaluateStage k cfg scene c ad).2.1.id = c.id := by
  cases k
  case ikFeasibility => exact ikFeasibilityEval_id scene c ad
  case ikWithCollision => exact ikWithCollisionEval_id scene c ad
  all_goals
    dsimp only [evaluateStage]
    split <;> rfl

theorem runStages_id (cfg : FilterPipelineConfig) (scene : PlanningSceneSnapshot)
    (ks : List FilterStageKind) (idx : Nat) (c : GraspCandidate) (ad : SolverAdapter) :
    (runStages cfg scene ks idx c ad).1.id = c.id := by
  induction ks generalizing idx c ad with
  | nil => rfl
  | cons k rest ih =>
    simp only [runStages]
    by_cases h : (evaluateStage k cfg scene c ad).1 = true
    · simp only [h, if_true]
      rw [ih]
      simpa using evaluateStage_id k cfg scene c ad
    · simp only [h, if_false]
      simpa using evaluateStage_id k cfg scene c ad

theorem runStages_terminal (cfg : FilterPipelineConfig) (scene : PlanningSceneSnapshot)
    (ks : List FilterStageKind) (idx : Nat) (c : GraspCandidate) (ad : SolverAdapter) :
    (runStages cfg scene ks idx c ad).1.status.isTerminal = true := by
  induction ks generalizing idx c ad with
  | nil => rfl
  | cons k rest ih =>
    simp only [runStages]
    by_cases h : (evaluateStage k cfg scene c ad).1 = true
    · simp only [h, if_true]
      exact ih (idx + 1) _ _
    · simp only [h, if_false]
      rfl

theorem runAll_map_id (cfg : FilterPipelineConfig) (scene : PlanningSceneSnapshot)
    (cs : List GraspCandidate) (ad : SolverAdapter) :
    ((runAll cfg scene cs ad).1).map GraspCandidate.id = cs.map GraspCandidate.id := by
  induction cs generalizing ad with
  | nil => rfl
  | cons c cs ih =>
    simp only [runAll, List.map_cons]
    rw [runStages_id, ih]

theorem runAll_terminal (cfg : FilterPipelineConfig) (scene : PlanningSceneSnapshot)
    (cs : List GraspCandidate) (ad : SolverAdapter) :
    ∀ r ∈ (runAll cfg scene cs ad).1, r.status.isTerminal = true := by
  induction cs generalizing ad with
  | nil =>
    intro r hr
    simp [runAll] at hr
  | cons c cs ih =>
    intro r hr
    simp only [runAll, List.mem_cons] at hr
    rcases hr with rfl | hr
    · exact runStages_terminal cfg scene cfg.stages 0 c ad
    · exact ih _ r hr

theorem runPipeline_fst_fst (cfg : FilterPipelineConfig) (scene : PlanningSceneSnapshot)
    (cands : List GraspCandidate) (prev : SolverAdapter) :
    (runPipeline cfg scene cands prev).1.1 =
      (runAll cfg scene cands mkSolverAdapter).1 := rfl

/-- Claim C4: for every configuration, scene snapshot, candidate set and
prior adapter state, the pipeline's output ids are exactly the input ids in
multiset (here even list) terms; hence when the input ids are distinct every
input candidate id appears exactly once in the output — no duplicates, no
omissions — and every output candidate carries a terminal status, whatever
the per-candidate IK outcomes are. -/
theorem C4_ids_exactly_once (cfg : FilterPipelineConfig)
    (scene : PlanningSceneSnapshot) (cands : List GraspCandidate)
    (prev : SolverAdapter) (h : (cands.map GraspCandidate.id).Nodup) :
    (((runPipeline cfg scene cands prev).1.1).map GraspCandidate.id =
      cands.map GraspCandidate.id) ∧
    (∀ c ∈ cands,
      (((runPipeline cfg scene cands prev).1.1).map GraspCandidate.id).count c.id = 1) ∧
    ∀ r ∈ (runPipeline cfg scene cands prev).1.1, r.status.isTerminal = true := by
  rw [runPipeline_fst_fst]
  refine ⟨runAll_map_id cfg scene cands mkSolverAdapter, ?_, ?_⟩
  · intro c hc
    rw [runAll_map_id]
    exact List.count_eq_one_of_mem h (List.mem_map_of_mem _ hc)
  · exact runAll_terminal cfg scene cands mkSolverAdapter

/-- Claim C4 witness: the exactly-once property evaluated on two concrete
candidates in a scene where IK always fails. -/
theorem C4_witness :
    (([demoCandidate 0, demoCandidate 1].map GraspCandidate.id).Nodup) ∧
    ((((runPipeline demoConfig sceneUnreachable [demoCandidate 0, demoCandidate 1]
          mkSolverAdapter).1.1).map GraspCandidate.id =
        [demoCandidate 0, demoCandidate 1].map GraspCandidate.id) ∧
     (∀ c ∈ [demoCandidate 0, demoCandidate 1],
       (((runPipeline demoConfig sceneUnreachable [demoCandidate 0, demoCandidate 1]
            mkSolverAdapter).1.1).map GraspCandidate.id).count c.id = 1) ∧
     ∀ r ∈ (runPipeline demoConfig sceneUnreachable [demoCandidate 0, demoCandidate 1]
              mkSolverAdapter).1.1, r.status.isTerminal = true) :=
  ⟨by decide,
   C4_ids_exactly_once demoConfig sceneUnreachable [demoCandidate 0, demoCandidate 1]
     mkSolverAdapter (by decide)⟩

/-- Claim C5: a pipeline run on an empty candidate set is not an error: it
returns the empty output set together with all-zero statistics. -/
theorem C5_empty_run (cfg : FilterPipelineConfig) (scene : PlanningSceneSnapshot)
    (prev : SolverAdapter) :
    (runPipeline cfg scene [] prev).1 = ([], RunStatistics.zero) := rfl

/-- Claim C6: `IKFeasibilityFilter` attempts IK for the pregrasp, grasp and
lift poses in exactly that fixed order (visible in the adapter's attempt
log) and short-circuits on the first unsolved pose: nothing after the
failing pose is ever attempted and the `ik_solution` fields for the failing
and later poses remain unset. -/
theorem C6_ik_order_short_circuit (cfg : FilterPipelineConfig)
    (scene : PlanningSceneSnapshot) (c : GraspCandidate) (ad : SolverAdapter)
    (h0 : c.ik_solution = { pregrasp := none, grasp := none, lift := none }) :
    (scene.ikModel c.pregrasp_pose = none →
      evaluateStage .ikFeasibility cfg scene c ad =
        (false, c, "pregrasp_pose_unreachable",
         { log := ad.log ++ [c.pregrasp_pose] })) ∧
    (∀ s1, scene.ikModel c.pregrasp_pose = some s1 →
      scene.ikModel c.grasp_pose = none →
      evaluateStage .ikFeasibility cfg scene c ad =
        (false,
         { c with ik_solution := { pregrasp := some s1, grasp := none, lift := none } },
         "grasp_pose_unreachable",
         { log := ad.log ++ [c.pregrasp_pose, c.grasp_pose] })) ∧
    (∀ s1 s2, scene.ikModel c.pregrasp_pose = some s1 →
      scene.ikModel c.grasp_pose = some s2 →
      scene.ikModel c.lift_pose = none →
      evaluateStage .ikFeasibility cfg scene c ad =
        (false,
         { c with ik_solution :=
             { pregrasp := some s1, grasp := some s2, lift := none } },
         "lift_pose_unreachable",
         { log := ad.log ++ [c.pregrasp_pose, c.grasp_pose, c.lift_pose] })) := by
  refine ⟨?_, ?_, ?_⟩
  · intro hp
    simp [evaluateStage, ikFeasibilityEval, solveIK, hp]
  · intro s1 hp hg
    simp [evaluateStage, ikFeasibilityEval, solveIK, hp, hg, h0]
  · intro s1 s2 hp hg hl
    simp [evaluateStage, ikFeasibilityEval, solveIK, hp, hg, hl, h0]

/-- Claim C6 witness: the first short-circuit case evaluated on a concrete
candidate in a scene where IK always fails — only the pregrasp pose is
attempted. -/
theorem C6_witness :
    sceneUnreachable.ikModel (demoCandidate 0).pregrasp_pose = none ∧
    evaluateStage .ikFeasibility demoConfig sceneUnreachable (demoCandidate 0)
        mkSolverAdapter =
      (false, demoCandidate 0, "pregrasp_pose_unreachable",
       { log := mkSolverAdapter.log ++ [(demoCandidate 0).pregrasp_pose] }) :=
  ⟨rfl,
   (C6_ik_order_short_circuit demoConfig sceneUnreachable (demoCandidate 0)
       mkSolverAdapter rfl).1 rfl⟩

/-- Claim C7: the pipeline is idempotent — re-running it on the same
candidate set against the identical scene snapshot, starting from whatever
solver-adapter state the first run left behind, yields the identical
annotated candidates and identical statistics, because each run constructs
its solver adapters fresh at pool startup and reads only the immutable
snapshot and configuration. -/
theorem C7_idempotent (cfg : FilterPipelineConfig) (scene : PlanningSceneSnapshot)
    (cands : List GraspCandidate) (prev : SolverAdapter) :
    (runPipeline cfg scene cands (runPipeline cfg scene cands prev).2).1 =
      (runPipeline cfg scene cands prev).1 := rfl

end MoveitGrasps
